import Mathlib

/-!
Shallow embedding of `backend/ai_generator.py`: the conversation state
machine (`generate_response_stream` with its state handlers) and the
single-shot `generate_response` code path.

External effects are modelled as an explicit environment of pure
functions: the Anthropic model service becomes `Env.model` (a function
from the outbound request to the structured response), the tool manager
becomes `Env.execute_tool`, and `datetime.now()` becomes `Env.clock`
(indexed by the number of tool calls already executed).  Python
exceptions (`AttributeError`, `IndexError`, `ValueError`) are modelled
with `Except String`.  Each state handler additionally reports the list
of model-service requests and tool-executor invocations it performs, so
claims about port usage can be stated and proved.
-/

namespace AIGen

/-- States in the conversation state machine (`ConversationState` in the source). -/
inductive ConversationState where
  | INITIAL
  | AWAITING_TOOL_DECISION
  | EXECUTING_TOOLS
  | AWAITING_FOLLOW_UP
  | COMPLETED
  | ERROR
  deriving DecidableEq, Repr

/-- Content blocks of a model response: a text block (the source probes
`hasattr(block, "text")`) or a tool-use block carrying a correlation id, a
tool name and an input payload (the source probes `block.type == "tool_use"`
and reads `block.id`, `block.name`, `block.input`).  The structured tool
input dictionary is modelled as an opaque string payload. -/
inductive ContentBlock where
  | text (t : String)
  | toolUse (id : String) (name : String) (input : String)
  deriving DecidableEq, Repr

/-- Structured response of the model service: a stop reason string and a list
of content blocks (`response.stop_reason`, `response.content`). -/
structure ModelResponse where
  stop_reason : String
  content : List ContentBlock
  deriving DecidableEq, Repr

/-- One `tool_result` entry sent back to the model
(`{"type": "tool_result", "tool_use_id": ..., "content": ...}`). -/
structure ToolResult where
  tool_use_id : String
  content : String
  deriving DecidableEq, Repr

/-- Content of one message in the conversation history: the user query string,
an assistant turn holding raw model content blocks, or a user turn holding a
batch of tool results. -/
inductive MessageContent where
  | text (s : String)
  | blocks (bs : List ContentBlock)
  | results (rs : List ToolResult)
  deriving DecidableEq, Repr

/-- One role-tagged message (`{"role": ..., "content": ...}`). -/
structure Message where
  role : String
  content : MessageContent
  deriving DecidableEq, Repr

/-- Outbound request to the model service: the messages, the system prompt and
whether tool declarations (with `tool_choice = auto`) were attached.  The
constant `base_params` fields (model name, temperature 0, max_tokens 800) are
the same on every call and are omitted. -/
structure ModelRequest where
  messages : List Message
  system : String
  tools : Bool
  deriving DecidableEq, Repr

/-- Environment of external collaborators: the model service port, the tool
executor port (`tool_manager.execute_tool`), and the wall clock supplying the
`datetime.now().isoformat()` timestamp for the n-th executed tool call. -/
structure Env where
  model : ModelRequest → ModelResponse
  execute_tool : String → String → String
  clock : Nat → String

/-- One audit entry of `tool_call_history`
(`{index, tool_name, input, result, timestamp}`). -/
structure ToolCallRecord where
  index : Nat
  tool_name : String
  input : String
  result : String
  timestamp : String
  deriving DecidableEq, Repr

/-- The mutable `ConversationContext` dataclass of the source. -/
structure ConversationContext where
  messages : List Message
  system_prompt : String
  tool_call_count : Nat := 0
  tool_call_history : List ToolCallRecord := []
  intermediate_responses : List String := []
  metadata : List (String × String) := []
  deriving DecidableEq, Repr

/-- The method `ConversationContext.add_tool_call`: increment the counter and
append one audit record.  The `datetime.now().isoformat()` timestamp is passed
in by the caller (drawn from `Env.clock`). -/
def ConversationContext.add_tool_call (self : ConversationContext) (tool_name : String)
    (tool_input : String) (result : String) (timestamp : String) : ConversationContext :=
  { self with
    tool_call_count := self.tool_call_count + 1,
    tool_call_history := self.tool_call_history ++
      [⟨self.tool_call_count + 1, tool_name, tool_input, result, timestamp⟩] }

/-- Payload dictionary of a transition (`data`); a field holding `none` models
an absent dictionary key, so `final_text = some none` models the key
`final_text` being present with value `None`.  The field `part_text` models
the source key `partial_text`. -/
structure TransitionData where
  response : Option ModelResponse := none
  tool_blocks : Option (List ContentBlock) := none
  final_text : Option (Option String) := none
  part_text : Option (Option String) := none
  error : Option String := none
  tool_results : Option (List ToolResult) := none
  deriving DecidableEq, Repr

/-- The `StateTransition` dataclass of the source. -/
structure StateTransition where
  from_state : ConversationState
  to_state : ConversationState
  trigger : String
  data : TransitionData
  deriving DecidableEq, Repr

/-- Result of one state-handler dispatch: the transition it returns, the
context after its side effects, and the model-service / tool-executor
invocations it performed (in order). -/
structure StepOut where
  transition : StateTransition
  ctx : ConversationContext
  modelCalls : List ModelRequest
  toolCalls : List (String × String)
  deriving DecidableEq, Repr

/-- The static class attribute `SYSTEM_PROMPT`, reproduced verbatim. -/
def SYSTEM_PROMPT : String :=
  " You are an AI assistant specialized in course materials and educational content with access to tools for searching course content and retrieving course outlines.\n" ++
  "\n" ++
  "Tool Usage:\n" ++
  "- **Course Outline Tool**: Use for questions about course structure, curriculum, lesson list, or \"what lessons are in [course]\"\n" ++
  "  - Returns: Course title, course link, and complete list of lessons with numbers and titles\n" ++
  "  - Always present the full outline when retrieved, including the course link and all lesson details\n" ++
  "\n" ++
  "- **Search Content Tool**: Use for questions about specific course content or detailed educational materials\n" ++
  "  - **One search per query maximum**\n" ++
  "  - Synthesize search results into accurate, fact-based responses\n" ++
  "  - If search yields no results, state this clearly without offering alternatives\n" ++
  "\n" ++
  "Response Protocol:\n" ++
  "- **General knowledge questions**: Answer using existing knowledge without searching\n" ++
  "- **Course outline/structure questions**: Use the outline tool to retrieve course details\n" ++
  "- **Course-specific content questions**: Search first, then answer\n" ++
  "- **No meta-commentary**:\n" ++
  " - Provide direct answers only — no reasoning process, search explanations, or question-type analysis\n" ++
  " - Do not mention \"based on the search results\" or \"using the outline tool\"\n" ++
  "\n" ++
  "\n" ++
  "All responses must be:\n" ++
  "1. **Brief, Concise and focused** - Get to the point quickly\n" ++
  "2. **Educational** - Maintain instructional value\n" ++
  "3. **Clear** - Use accessible language\n" ++
  "4. **Example-supported** - Include relevant examples when they aid understanding\n" ++
  "Provide only the direct answer to what was asked.\n"

/-- Construction of the system prompt, shared verbatim by `generate_response`
(lines 115-120) and `generate_response_stream` (lines 440-445): the base
prompt, followed by a previous-conversation section when a history string is
supplied.  Python truthiness makes an empty history string behave like an
absent one. -/
def build_system_content (conversation_history : Option String) : String :=
  match conversation_history with
  | some h =>
      if h = "" then SYSTEM_PROMPT
      else SYSTEM_PROMPT ++ "\n\nPrevious conversation:\n" ++ h
  | none => SYSTEM_PROMPT

/-- Extraction of the first text-bearing content block, mirroring the
`for content_block in response.content: if hasattr(content_block, "text"):
... break` loops of the source. -/
def first_text_block : List ContentBlock → Option String
  | [] => none
  | ContentBlock.text t :: _ => some t
  | ContentBlock.toolUse _ _ _ :: rest => first_text_block rest

/-- The handler `_handle_initial_state`: send the first query to the model and
transition `INITIAL → AWAITING_TOOL_DECISION` carrying the response. -/
def handle_initial_state (env : Env) (ctx : ConversationContext) (tools : Bool) : StepOut :=
  let req : ModelRequest := ⟨ctx.messages, ctx.system_prompt, tools⟩
  let response := env.model req
  ⟨⟨ConversationState.INITIAL, ConversationState.AWAITING_TOOL_DECISION,
    "api_call_complete", { response := some response }⟩, ctx, [req], []⟩

/-- The handler `_handle_tool_decision_state`: classify the prior response by
its stop reason.  On `tool_use` the raw content is appended to the message
history as an assistant turn (the iteration-logging `print` is a pure side
effect and is not modelled). -/
def handle_tool_decision_state (response : ModelResponse) (ctx : ConversationContext) : StepOut :=
  if response.stop_reason = "tool_use" then
    let ctx1 := { ctx with
      messages := ctx.messages ++ [⟨"assistant", MessageContent.blocks response.content⟩] }
    ⟨⟨ConversationState.AWAITING_TOOL_DECISION, ConversationState.EXECUTING_TOOLS,
      "tool_use", { response := some response, tool_blocks := some response.content }⟩,
      ctx1, [], []⟩
  else if response.stop_reason = "end_turn" then
    ⟨⟨ConversationState.AWAITING_TOOL_DECISION, ConversationState.COMPLETED,
      "end_turn", { final_text := some (first_text_block response.content),
                    response := some response }⟩, ctx, [], []⟩
  else if response.stop_reason = "max_tokens" then
    ⟨⟨ConversationState.AWAITING_TOOL_DECISION, ConversationState.ERROR,
      "max_tokens", { error := some "Token limit reached",
                      part_text := some (first_text_block response.content) }⟩, ctx, [], []⟩
  else
    ⟨⟨ConversationState.AWAITING_TOOL_DECISION, ConversationState.ERROR,
      "unknown_stop_reason",
      { error := some ("Unexpected stop_reason: " ++ response.stop_reason) }⟩, ctx, [], []⟩

/-- The `for content_block in tool_blocks` loop of
`_handle_tool_execution_state`: execute each tool-use block in emission order
(via `_execute_tool_async`, which just calls `tool_manager.execute_tool`),
record it in the context, and collect the formatted results and the executor
invocations.  When `tool_manager` is `None` (`false`) and a tool-use block is
reached, the attribute access on `None` raises. -/
def execute_tools_loop (env : Env) (tool_manager : Bool) :
    List ContentBlock → ConversationContext →
    Except String (ConversationContext × List ToolResult × List (String × String))
  | [], ctx => Except.ok (ctx, [], [])
  | ContentBlock.text _ :: rest, ctx => execute_tools_loop env tool_manager rest ctx
  | ContentBlock.toolUse id name input :: rest, ctx =>
    if tool_manager then
      let result := env.execute_tool name input
      let ctx1 := ctx.add_tool_call name input result (env.clock ctx.tool_call_count)
      match execute_tools_loop env tool_manager rest ctx1 with
      | Except.ok (ctxf, results, calls) =>
          Except.ok (ctxf, ⟨id, result⟩ :: results, (name, input) :: calls)
      | Except.error e => Except.error e
    else
      Except.error "AttributeError: NoneType object has no attribute execute_tool"

/-- The handler `_handle_tool_execution_state`: run the tool loop, append the
batched tool results as one user turn when non-empty, and transition
`EXECUTING_TOOLS → AWAITING_FOLLOW_UP` carrying the results. -/
def handle_tool_execution_state (env : Env) (tool_blocks : List ContentBlock)
    (ctx : ConversationContext) (tool_manager : Bool) : Except String StepOut :=
  match execute_tools_loop env tool_manager tool_blocks ctx with
  | Except.error e => Except.error e
  | Except.ok (ctx1, tool_results, calls) =>
    let ctx2 := if tool_results = [] then ctx1
      else { ctx1 with
        messages := ctx1.messages ++ [⟨"user", MessageContent.results tool_results⟩] }
    Except.ok ⟨⟨ConversationState.EXECUTING_TOOLS, ConversationState.AWAITING_FOLLOW_UP,
      "tools_executed", { tool_results := some tool_results }⟩, ctx2, [], calls⟩

/-- The handler `_handle_follow_up_state`: send the accumulated messages back
to the model, then classify the new response with the same (duplicated in the
source) stop-reason logic as the decision state, with `AWAITING_FOLLOW_UP` as
the from-state. -/
def handle_follow_up_state (env : Env) (ctx : ConversationContext) (tools : Bool) : StepOut :=
  let req : ModelRequest := ⟨ctx.messages, ctx.system_prompt, tools⟩
  let response := env.model req
  if response.stop_reason = "tool_use" then
    let ctx1 := { ctx with
      messages := ctx.messages ++ [⟨"assistant", MessageContent.blocks response.content⟩] }
    ⟨⟨ConversationState.AWAITING_FOLLOW_UP, ConversationState.EXECUTING_TOOLS,
      "tool_use", { response := some response, tool_blocks := some response.content }⟩,
      ctx1, [req], []⟩
  else if response.stop_reason = "end_turn" then
    ⟨⟨ConversationState.AWAITING_FOLLOW_UP, ConversationState.COMPLETED,
      "end_turn", { final_text := some (first_text_block response.content),
                    response := some response }⟩, ctx, [req], []⟩
  else if response.stop_reason = "max_tokens" then
    ⟨⟨ConversationState.AWAITING_FOLLOW_UP, ConversationState.ERROR,
      "max_tokens", { error := some "Token limit reached",
                      part_text := some (first_text_block response.content) }⟩, ctx, [req], []⟩
  else
    ⟨⟨ConversationState.AWAITING_FOLLOW_UP, ConversationState.ERROR,
      "unknown_stop_reason",
      { error := some ("Unexpected stop_reason: " ++ response.stop_reason) }⟩, ctx, [req], []⟩

/-- The method `_dispatch_state`: select the handler for the current state.
`AWAITING_TOOL_DECISION` reads `last_response.stop_reason`, which raises when
`last_response` is `None`; `EXECUTING_TOOLS` takes
`last_response.content if last_response else []`; terminal states raise
`ValueError`. -/
def dispatch_state (env : Env) (state : ConversationState) (ctx : ConversationContext)
    (tools : Bool) (tool_manager : Bool) (last_response : Option ModelResponse) :
    Except String StepOut :=
  match state with
  | ConversationState.INITIAL => Except.ok (handle_initial_state env ctx tools)
  | ConversationState.AWAITING_TOOL_DECISION =>
      match last_response with
      | some response => Except.ok (handle_tool_decision_state response ctx)
      | none => Except.error "AttributeError: NoneType object has no attribute stop_reason"
  | ConversationState.EXECUTING_TOOLS =>
      let tool_blocks := match last_response with
        | some r => r.content
        | none => []
      handle_tool_execution_state env tool_blocks ctx tool_manager
  | ConversationState.AWAITING_FOLLOW_UP => Except.ok (handle_follow_up_state env ctx tools)
  | ConversationState.COMPLETED => Except.error "ValueError: No handler for state COMPLETED"
  | ConversationState.ERROR => Except.error "ValueError: No handler for state ERROR"

/-- Membership test `state in [ConversationState.COMPLETED, ConversationState.ERROR]`. -/
def isTerminal : ConversationState → Bool
  | ConversationState.COMPLETED => true
  | ConversationState.ERROR => true
  | _ => false

/-- Everything one run of `generate_response_stream` produces: the yielded
transitions in order, the final context, the model-service requests and
tool-executor invocations in order, and the uncaught exception if the run
raised one. -/
structure RunResult where
  transitions : List StateTransition
  ctx : ConversationContext
  modelCalls : List ModelRequest
  toolCalls : List (String × String)
  err : Option String
  deriving DecidableEq, Repr

/-- The safety transition synthesized after the driving loop
(`trigger = "max_iterations_exceeded"`), with the f-string error message. -/
def max_iterations_transition (state : ConversationState) (max_iterations : Nat) : StateTransition :=
  ⟨state, ConversationState.ERROR, "max_iterations_exceeded",
    { error := some ("Exceeded " ++ toString max_iterations ++ " iterations without completion") }⟩

/-- The driving `while` loop of `generate_response_stream` plus the post-loop
safety check.  The counter is carried as the remaining budget
`k = max_iterations - iteration`, so `iteration < max_iterations` is `0 < k`
and, at the `break` taken after a terminal transition,
`iteration + 1 >= max_iterations` is `k - 1 = 0`.  As in the source, the
`break` leaves `current_state` at its pre-transition (non-terminal) value, so
the post-loop check sees that stale state.  A raised exception aborts the run
and skips the post-loop check. -/
def stream_loop (env : Env) (tools : Bool) (tool_manager : Bool) (max_iterations : Nat) :
    Nat → ConversationState → ConversationContext → Option ModelResponse → RunResult
  | 0, state, ctx, _ =>
      ⟨if isTerminal state then [] else [max_iterations_transition state max_iterations],
        ctx, [], [], none⟩
  | k + 1, state, ctx, last_response =>
      if isTerminal state then ⟨[], ctx, [], [], none⟩
      else
        match dispatch_state env state ctx tools tool_manager last_response with
        | Except.error e => ⟨[], ctx, [], [], some e⟩
        | Except.ok step =>
          if isTerminal step.transition.to_state then
            ⟨step.transition ::
                (if k = 0 then [max_iterations_transition state max_iterations] else []),
              step.ctx, step.modelCalls, step.toolCalls, none⟩
          else
            let last_response1 := match step.transition.data.response with
              | some r => some r
              | none => last_response
            let rest := stream_loop env tools tool_manager max_iterations k
              step.transition.to_state step.ctx last_response1
            ⟨step.transition :: rest.transitions, rest.ctx,
              step.modelCalls ++ rest.modelCalls, step.toolCalls ++ rest.toolCalls, rest.err⟩

/-- The generator `generate_response_stream`: build the system prompt,
initialize the context with the single user message, and drive the state
machine from `INITIAL` with an empty `last_response` and iteration budget
`max_iterations`. -/
def generate_response_stream (env : Env) (query : String)
    (conversation_history : Option String) (tools : Bool) (tool_manager : Bool)
    (max_iterations : Nat) : RunResult :=
  let system_content := build_system_content conversation_history
  let context : ConversationContext :=
    ⟨[⟨"user", MessageContent.text query⟩], system_content, 0, [], [], []⟩
  stream_loop env tools tool_manager max_iterations max_iterations
    ConversationState.INITIAL context none

/-- The expression `response.content[0].text` of the single-shot path:
`IndexError` on empty content, `AttributeError` when the first block has no
text field, otherwise the text of the first block. -/
def content0_text (response : ModelResponse) : Except String String :=
  match response.content with
  | ContentBlock.text t :: _ => Except.ok t
  | _ :: _ => Except.error "AttributeError: toolUse object has no attribute text"
  | [] => Except.error "IndexError: list index out of range"

/-- The `for content_block in initial_response.content` collection loop that
builds the `tool_results` list: one formatted result per tool-use block, in
emission order, each produced by invoking the executor with that block's name
and input.  It is the result list of the loops in both
`_handle_tool_execution` (single-shot) and `_handle_tool_execution_state`
(state machine). -/
def expected_tool_results (env : Env) : List ContentBlock → List ToolResult
  | [] => []
  | ContentBlock.text _ :: rest => expected_tool_results env rest
  | ContentBlock.toolUse id name input :: rest =>
      ⟨id, env.execute_tool name input⟩ :: expected_tool_results env rest

/-- The message-list construction of `_handle_tool_execution`: append the
assistant turn holding the raw tool-use response, then append the batched
tool results as one user turn when non-empty. -/
def single_shot_messages (env : Env) (initial_response : ModelResponse)
    (messages : List Message) : List Message :=
  let messages1 := messages ++ [⟨"assistant", MessageContent.blocks initial_response.content⟩]
  let tool_results := expected_tool_results env initial_response.content
  if tool_results = [] then messages1
  else messages1 ++ [⟨"user", MessageContent.results tool_results⟩]

/-- The method `_handle_tool_execution` of the single-shot path: build the
follow-up messages (executing every tool-use block in order), call the model
again without tools, and return `final_response.content[0].text`. -/
def handle_tool_execution (env : Env) (initial_response : ModelResponse)
    (messages : List Message) (system : String) : Except String String :=
  let final_response := env.model ⟨single_shot_messages env initial_response messages, system, false⟩
  content0_text final_response

/-- The single-shot method `generate_response`: one model call, then either
the tool-execution branch (when the stop reason is `tool_use` and a tool
manager was supplied) or the direct `response.content[0].text` return. -/
def generate_response (env : Env) (query : String)
    (conversation_history : Option String) (tools : Bool) (tool_manager : Bool) :
    Except String String :=
  let system_content := build_system_content conversation_history
  let messages : List Message := [⟨"user", MessageContent.text query⟩]
  let response := env.model ⟨messages, system_content, tools⟩
  if response.stop_reason = "tool_use" ∧ tool_manager then
    handle_tool_execution env response messages system_content
  else
    content0_text response

/-- Name and input of every tool-use block, in emission order (what the Tool
Executor Port is invoked with). -/
def tool_use_calls : List ContentBlock → List (String × String)
  | [] => []
  | ContentBlock.text _ :: rest => tool_use_calls rest
  | ContentBlock.toolUse _ name input :: rest => (name, input) :: tool_use_calls rest

/-- The audit records that executing the given blocks from a context with
`count` prior tool calls is expected to append. -/
def expected_tool_entries (env : Env) (count : Nat) : List ContentBlock → List ToolCallRecord
  | [] => []
  | ContentBlock.text _ :: rest => expected_tool_entries env count rest
  | ContentBlock.toolUse _ name input :: rest =>
      ⟨count + 1, name, input, env.execute_tool name input, env.clock count⟩ ::
        expected_tool_entries env (count + 1) rest

/-- The opening model-service request shared by both entry points: the single
user message, the built system prompt, and the supplied tool flag. -/
def initial_request (q : String) (hist : Option String) (tools : Bool) : ModelRequest :=
  ⟨[⟨"user", MessageContent.text q⟩], build_system_content hist, tools⟩

/-- The follow-up request the single-shot tool path sends: the rebuilt message
list, the same system prompt, and no tools. -/
def single_shot_follow_up_request (env : Env) (q : String) (hist : Option String)
    (tools : Bool) : ModelRequest :=
  ⟨single_shot_messages env (env.model (initial_request q hist tools))
      [⟨"user", MessageContent.text q⟩],
    build_system_content hist, false⟩

/-- The `final_text` payload of the first transition into `COMPLETED`, if
any: `some none` means the run completed with a null final answer. -/
def first_completed_final_text (ts : List StateTransition) : Option (Option String) :=
  match ts.find? (fun tr => decide (tr.to_state = ConversationState.COMPLETED)) with
  | some tr => tr.data.final_text
  | none => none

/-- The context-counting invariant of the specification:
`toolCallCount == len(toolCallHistory)`. -/
def ctxInv (ctx : ConversationContext) : Prop :=
  ctx.tool_call_count = ctx.tool_call_history.length

instance (ctx : ConversationContext) : Decidable (ctxInv ctx) := by
  unfold ctxInv; infer_instance

/-! Concrete sample environments used to evaluate the embedded code on
specific inputs. -/

/-- A model service that always completes naturally with the single text
block `"4"`. -/
def env_end_turn_text4 : Env :=
  ⟨fun _ => ⟨"end_turn", [ContentBlock.text "4"]⟩, fun _ _ => "r", fun n => toString n⟩

/-- A model service that always requests one tool invocation. -/
def env_tool_use_loop : Env :=
  ⟨fun _ => ⟨"tool_use", [ContentBlock.toolUse "i1" "search" "x"]⟩,
    fun name input => name ++ ":" ++ input, fun n => toString n⟩

/-- A model service that always completes naturally, but whose first content
block is a tool-use block, with the text block second. -/
def env_tool_first_text : Env :=
  ⟨fun _ => ⟨"end_turn", [ContentBlock.toolUse "i" "s" "x", ContentBlock.text "4"]⟩,
    fun _ _ => "r", fun _ => "t"⟩

/-- A model service that requests one search tool on the opening request (one
message in history) and completes naturally with text `"answer"` afterwards;
it ignores the tool-declaration flag. -/
def env_one_round : Env :=
  ⟨fun req =>
      if req.messages.length = 1 then ⟨"tool_use", [ContentBlock.toolUse "i1" "search" "x"]⟩
      else ⟨"end_turn", [ContentBlock.text "answer"]⟩,
    fun _ _ => "res", fun _ => "t"⟩

/-- A small sample context. -/
def ctx_sample : ConversationContext :=
  ⟨[⟨"user", MessageContent.text "q"⟩], SYSTEM_PROMPT, 0, [], [], []⟩

/-- The dispatch outcome of the `INITIAL` handler in `env_end_turn_text4`
from `ctx_sample`. -/
def step_sample : StepOut := handle_initial_state env_end_turn_text4 ctx_sample false

/-- C1: the claim states that once a transition into `COMPLETED` or `ERROR`
has been yielded no further transition follows, for every `maxIterations`
value.  The code violates this: the `break` taken after a terminal transition
leaves `current_state` at its stale non-terminal value, so when the terminal
transition lands exactly on the `maxIterations`-th dispatch the post-loop
safety check still fires.  Evaluated here: with `max_iterations = 2` and a
model that completes naturally on its first response, the run yields the
`COMPLETED` transition and then a spurious `max_iterations_exceeded` `ERROR`
transition after it. -/
theorem C1_completed_then_spurious_max_iterations_error :
    (generate_response_stream env_end_turn_text4 "q" none false false 2).transitions =
      [⟨ConversationState.INITIAL, ConversationState.AWAITING_TOOL_DECISION,
          "api_call_complete", { response := some ⟨"end_turn", [ContentBlock.text "4"]⟩ }⟩,
       ⟨ConversationState.AWAITING_TOOL_DECISION, ConversationState.COMPLETED,
          "end_turn", { final_text := some (some "4"),
                        response := some ⟨"end_turn", [ContentBlock.text "4"]⟩ }⟩,
       max_iterations_transition ConversationState.AWAITING_TOOL_DECISION 2] := by
  rfl

set_option maxRecDepth 10000 in
/-- C2 counterexample: the claim asserts the prior-conversation text comes
before the base instructions in the system prompt.  In the code it comes
after: with history `"H"` the built prompt is the base `SYSTEM_PROMPT`
followed by the previous-conversation section, and the prompt is not of the
form `pre ++ SYSTEM_PROMPT` for any `pre` (the base text is not at the end),
so no reading puts the prior-conversation text before the base
instructions. -/
theorem C2_history_is_suffix_counterexample :
    build_system_content (some "H") =
      SYSTEM_PROMPT ++ "\n\nPrevious conversation:\n" ++ "H" ∧
    ¬ ∃ pre : String, build_system_content (some "H") = pre ++ SYSTEM_PROMPT := by
  constructor
  · rfl
  · rintro ⟨pre, hpre⟩
    have hd := congrArg String.data hpre
    rw [show build_system_content (some "H") =
        (SYSTEM_PROMPT ++ "\n\nPrevious conversation:\n") ++ "H" from rfl] at hd
    rw [String.data_append, String.data_append, String.data_append] at hd
    have hL : ((SYSTEM_PROMPT.data ++ ("\n\nPrevious conversation:\n" : String).data) ++
        ("H" : String).data).getLast? = some (Char.ofNat 72) := by
      rw [show ("H" : String).data = [Char.ofNat 72] from rfl]
      exact List.getLast?_concat _
    have hR : (pre.data ++ SYSTEM_PROMPT.data).getLast? = some (Char.ofNat 10) := by
      rw [List.getLast?_append_of_ne_nil _ (by decide)]
      decide
    rw [hd] at hL
    rw [hL] at hR
    simp at hR

/-- C2 amended: when the caller supplies a non-empty conversation-history
summary, the system prompt is the base instructional text followed (suffixed,
not prefixed) by the previous-conversation section; when no history, or an
empty one, is supplied, the prompt is exactly the base text.  In every run of
`generate_response_stream` the first model-service request carries exactly
that prompt. -/
theorem C2_system_prompt_amended :
    (∀ h : String, h ≠ "" →
      build_system_content (some h) = SYSTEM_PROMPT ++ "\n\nPrevious conversation:\n" ++ h) ∧
    build_system_content none = SYSTEM_PROMPT ∧
    build_system_content (some "") = SYSTEM_PROMPT ∧
    (∀ (env : Env) (q : String) (hist : Option String) (tools tm : Bool) (k : Nat),
      (generate_response_stream env q hist tools tm (k + 1)).modelCalls.head? =
        some ⟨[⟨"user", MessageContent.text q⟩], build_system_content hist, tools⟩) := by
  refine ⟨?_, rfl, rfl, ?_⟩
  · intro h hne
    simp only [build_system_content]
    rw [if_neg hne]
  · intro env q hist tools tm k
    simp only [generate_response_stream, stream_loop, dispatch_state, handle_initial_state,
      isTerminal]
    simp

/-- C2 amended witness: with history `"H"` and `env_end_turn_text4`, the
prompt is the base text followed by the previous-conversation section, and
the first outbound request of the run carries it. -/
theorem C2_system_prompt_amended_witness :
    build_system_content (some "H") = SYSTEM_PROMPT ++ "\n\nPrevious conversation:\n" ++ "H" ∧
    (generate_response_stream env_end_turn_text4 "q" (some "H") false false (1 + 1)).modelCalls.head? =
      some ⟨[⟨"user", MessageContent.text "q"⟩], build_system_content (some "H"), false⟩ :=
  ⟨C2_system_prompt_amended.1 "H" (by decide),
    C2_system_prompt_amended.2.2.2 env_end_turn_text4 "q" (some "H") false false 1⟩

/-- C5: on stop reason `end_turn`, both classification sites (the
`AWAITING_TOOL_DECISION` handler and the follow-up handler) transition to
`COMPLETED` with `final_text` equal to the first text-bearing content block —
present-but-null when no text-bearing block exists — leaving the context
untouched; no `ERROR` transition arises. -/
theorem C5_end_turn_completion :
    (∀ (response : ModelResponse) (ctx : ConversationContext),
      response.stop_reason = "end_turn" →
      handle_tool_decision_state response ctx =
        ⟨⟨ConversationState.AWAITING_TOOL_DECISION, ConversationState.COMPLETED, "end_turn",
          { final_text := some (first_text_block response.content),
            response := some response }⟩, ctx, [], []⟩) ∧
    (∀ (env : Env) (ctx : ConversationContext) (tools : Bool),
      (env.model ⟨ctx.messages, ctx.system_prompt, tools⟩).stop_reason = "end_turn" →
      handle_follow_up_state env ctx tools =
        ⟨⟨ConversationState.AWAITING_FOLLOW_UP, ConversationState.COMPLETED, "end_turn",
          { final_text :=
              some (first_text_block (env.model ⟨ctx.messages, ctx.system_prompt, tools⟩).content),
            response := some (env.model ⟨ctx.messages, ctx.system_prompt, tools⟩) }⟩,
          ctx, [⟨ctx.messages, ctx.system_prompt, tools⟩], []⟩) := by
  constructor
  · intro response ctx h
    unfold handle_tool_decision_state
    rw [h]
    simp
  · intro env ctx tools h
    simp only [handle_follow_up_state, h]
    simp

/-- C5 witness: a natural-completion response with no text-bearing block
still transitions to `COMPLETED`, with a null final text. -/
theorem C5_end_turn_completion_witness :
    handle_tool_decision_state ⟨"end_turn", [ContentBlock.toolUse "i" "s" "x"]⟩ ctx_sample =
      ⟨⟨ConversationState.AWAITING_TOOL_DECISION, ConversationState.COMPLETED, "end_turn",
        { final_text := some (first_text_block [ContentBlock.toolUse "i" "s" "x"]),
          response := some ⟨"end_turn", [ContentBlock.toolUse "i" "s" "x"]⟩ }⟩,
        ctx_sample, [], []⟩ :=
  C5_end_turn_completion.1 ⟨"end_turn", [ContentBlock.toolUse "i" "s" "x"]⟩ ctx_sample rfl

/-- C6: on stop reason `max_tokens`, both classification sites transition to
the terminal `ERROR` state with trigger `max_tokens`, error payload exactly
`"Token limit reached"`, and `part_text` the first text-bearing block
(present-but-null when none exists); the destination is terminal so the run
stops without retry. -/
theorem C6_max_tokens_error :
    (∀ (response : ModelResponse) (ctx : ConversationContext),
      response.stop_reason = "max_tokens" →
      handle_tool_decision_state response ctx =
        ⟨⟨ConversationState.AWAITING_TOOL_DECISION, ConversationState.ERROR, "max_tokens",
          { error := some "Token limit reached",
            part_text := some (first_text_block response.content) }⟩, ctx, [], []⟩) ∧
    (∀ (env : Env) (ctx : ConversationContext) (tools : Bool),
      (env.model ⟨ctx.messages, ctx.system_prompt, tools⟩).stop_reason = "max_tokens" →
      handle_follow_up_state env ctx tools =
        ⟨⟨ConversationState.AWAITING_FOLLOW_UP, ConversationState.ERROR, "max_tokens",
          { error := some "Token limit reached",
            part_text :=
              some (first_text_block (env.model ⟨ctx.messages, ctx.system_prompt, tools⟩).content) }⟩,
          ctx, [⟨ctx.messages, ctx.system_prompt, tools⟩], []⟩) ∧
    isTerminal ConversationState.ERROR = true := by
  refine ⟨?_, ?_, rfl⟩
  · intro response ctx h
    unfold handle_tool_decision_state
    rw [h]
    simp
  · intro env ctx tools h
    simp only [handle_follow_up_state, h]
    simp

/-- C6 witness: a truncated response whose only block is text `"par"` yields
the `ERROR` transition with error `"Token limit reached"` and partial text
`"par"`. -/
theorem C6_max_tokens_error_witness :
    handle_tool_decision_state ⟨"max_tokens", [ContentBlock.text "par"]⟩ ctx_sample =
      ⟨⟨ConversationState.AWAITING_TOOL_DECISION, ConversationState.ERROR, "max_tokens",
        { error := some "Token limit reached",
          part_text := some (first_text_block [ContentBlock.text "par"]) }⟩,
        ctx_sample, [], []⟩ :=
  C6_max_tokens_error.1 ⟨"max_tokens", [ContentBlock.text "par"]⟩ ctx_sample rfl

/-- Exact characterization of the tool-execution loop when a tool manager is
supplied: the executor is invoked once per tool-use block in emission order,
the counter advances by the number of tool-use blocks, and the audit log is
extended by exactly the expected entries. -/
theorem execute_tools_loop_spec (env : Env) :
    ∀ (bs : List ContentBlock) (ctx : ConversationContext),
      execute_tools_loop env true bs ctx =
        Except.ok
          ({ ctx with
              tool_call_count := ctx.tool_call_count + (tool_use_calls bs).length,
              tool_call_history :=
                ctx.tool_call_history ++ expected_tool_entries env ctx.tool_call_count bs },
            expected_tool_results env bs, tool_use_calls bs) := by
  intro bs
  induction bs with
  | nil =>
    intro ctx
    simp [execute_tools_loop, tool_use_calls, expected_tool_entries, expected_tool_results]
  | cons b rest ih =>
    intro ctx
    cases b with
    | text t =>
      simp [execute_tools_loop, tool_use_calls, expected_tool_entries,
        expected_tool_results, ih]
    | toolUse id name input =>
      simp only [execute_tools_loop, if_true]
      rw [ih]
      simp [ConversationContext.add_tool_call, tool_use_calls, expected_tool_entries,
        expected_tool_results, List.append_assoc]
      omega

/-- The expected audit entries are in bijection with the tool-use blocks. -/
theorem expected_tool_entries_length (env : Env) :
    ∀ (bs : List ContentBlock) (count : Nat),
      (expected_tool_entries env count bs).length = (tool_use_calls bs).length := by
  intro bs
  induction bs with
  | nil => intro count; rfl
  | cons b rest ih =>
    intro count
    cases b with
    | text t => simp [expected_tool_entries, tool_use_calls, ih]
    | toolUse id name input => simp [expected_tool_entries, tool_use_calls, ih]

/-- Every expected audit entry has an index above the starting counter. -/
theorem expected_tool_entries_index_gt (env : Env) :
    ∀ (bs : List ContentBlock) (count : Nat) (e : ToolCallRecord),
      e ∈ expected_tool_entries env count bs → count < e.index := by
  intro bs
  induction bs with
  | nil => intro count e h; simp [expected_tool_entries] at h
  | cons b rest ih =>
    intro count e h
    cases b with
    | text t => exact ih count e h
    | toolUse id name input =>
      simp only [expected_tool_entries, List.mem_cons] at h
      rcases h with h | h
      · subst h; simp
      · have := ih (count + 1) e h; omega

/-- The expected audit entries carry strictly increasing indices. -/
theorem expected_tool_entries_pairwise (env : Env) :
    ∀ (bs : List ContentBlock) (count : Nat),
      List.Pairwise (fun a b => a.index < b.index) (expected_tool_entries env count bs) := by
  intro bs
  induction bs with
  | nil => intro count; simp [expected_tool_entries]
  | cons b rest ih =>
    intro count
    cases b with
    | text t => exact ih count
    | toolUse id name input =>
      refine List.Pairwise.cons ?_ (ih (count + 1))
      intro e he
      have := expected_tool_entries_index_gt env rest (count + 1) e he
      simp only []
      omega

/-- C4: an `EXECUTING_TOOLS` step over a prior response with N tool-invocation
blocks invokes the Tool Executor Port exactly N times, sequentially in the
order the blocks appear (`step.toolCalls` is the emission-order name/input
list), and extends `toolCallHistory` by exactly N new entries — each
recording the tool name, input, result and a timestamp — whose index fields
are strictly increasing. -/
theorem C4_sequential_tool_execution (env : Env) (bs : List ContentBlock)
    (ctx : ConversationContext) :
    ∃ step : StepOut,
      handle_tool_execution_state env bs ctx true = Except.ok step ∧
      step.toolCalls = tool_use_calls bs ∧
      step.ctx.tool_call_history =
        ctx.tool_call_history ++ expected_tool_entries env ctx.tool_call_count bs ∧
      step.ctx.tool_call_count = ctx.tool_call_count + (tool_use_calls bs).length ∧
      (expected_tool_entries env ctx.tool_call_count bs).length = (tool_use_calls bs).length ∧
      List.Pairwise (fun a b => a.index < b.index)
        (expected_tool_entries env ctx.tool_call_count bs) := by
  unfold handle_tool_execution_state
  rw [execute_tools_loop_spec]
  simp only []
  split
  · exact ⟨_, rfl, rfl, by simp, by simp,
      expected_tool_entries_length env bs ctx.tool_call_count,
      expected_tool_entries_pairwise env bs ctx.tool_call_count⟩
  · exact ⟨_, rfl, rfl, by simp, by simp,
      expected_tool_entries_length env bs ctx.tool_call_count,
      expected_tool_entries_pairwise env bs ctx.tool_call_count⟩

/-- Blocks with no tool-use entry leave the execution loop inert. -/
theorem execute_tools_loop_no_tool_use (env : Env) (tm : Bool) :
    ∀ (bs : List ContentBlock) (ctx : ConversationContext),
      tool_use_calls bs = [] →
      execute_tools_loop env tm bs ctx = Except.ok (ctx, [], []) := by
  intro bs
  induction bs with
  | nil => intro ctx _; rfl
  | cons b rest ih =>
    intro ctx h
    cases b with
    | text t => exact ih ctx h
    | toolUse id name input => simp [tool_use_calls] at h

/-- C9: when the prior response holds zero tool-invocation blocks, the
`EXECUTING_TOOLS` handler leaves the context entirely unchanged (no message
appended, no counter or history change), performs no tool-executor
invocation, and still yields a `tools_executed` transition into
`AWAITING_FOLLOW_UP` whose `tool_results` payload is the empty list; the
follow-up handler then issues exactly one model call carrying the unchanged
`ctx.messages` (so the assistant turn stays the last message, with no
tool-result turn). -/
theorem C9_empty_tool_round :
    (∀ (env : Env) (bs : List ContentBlock) (ctx : ConversationContext) (tm : Bool),
      tool_use_calls bs = [] →
      handle_tool_execution_state env bs ctx tm =
        Except.ok ⟨⟨ConversationState.EXECUTING_TOOLS, ConversationState.AWAITING_FOLLOW_UP,
          "tools_executed", { tool_results := some [] }⟩, ctx, [], []⟩) ∧
    (∀ (env : Env) (ctx : ConversationContext) (tools : Bool),
      (handle_follow_up_state env ctx tools).modelCalls =
        [⟨ctx.messages, ctx.system_prompt, tools⟩]) := by
  constructor
  · intro env bs ctx tm h
    unfold handle_tool_execution_state
    rw [execute_tools_loop_no_tool_use env tm bs ctx h]
    simp
  · intro env ctx tools
    simp only [handle_follow_up_state]
    split_ifs <;> rfl

/-- The expression `content[0].text` succeeds exactly when the content list
starts with a text block. -/
theorem content0_text_ok_iff (r : ModelResponse) (t : String) :
    content0_text r = Except.ok t ↔ ∃ rest, r.content = ContentBlock.text t :: rest := by
  cases hr : r.content with
  | nil => simp [content0_text, hr]
  | cons b rest =>
    cases b with
    | text s => simp [content0_text, hr]
    | toolUse id name input => simp [content0_text, hr]

/-- The expression `content[0].text` raises when the content list does not
start with a text block. -/
theorem content0_text_error_of_no_text (r : ModelResponse)
    (h : ∀ (t : String) (rest : List ContentBlock), r.content ≠ ContentBlock.text t :: rest) :
    ∃ e, content0_text r = Except.error e := by
  cases hr : r.content with
  | nil => exact ⟨"IndexError: list index out of range", by simp [content0_text, hr]⟩
  | cons b rest =>
    cases b with
    | text s => exact absurd hr (h s rest)
    | toolUse id name input =>
      exact ⟨"AttributeError: toolUse object has no attribute text", by simp [content0_text, hr]⟩

/-- C10: `generate_response` returns `response.content[0].text` unguarded on
both success paths — it returns a text answer exactly when the relevant
response (the initial response on the direct path, which includes a tool_use
response with no tool manager supplied; the follow-up response on the tool
path) has non-empty content whose first block bears a text field, and raises
an exception (rather than returning a null answer) whenever the content is
empty or its first block is not text-bearing. -/
theorem C10_unguarded_first_block :
    ∀ (env : Env) (q : String) (hist : Option String) (tools tm : Bool),
      (¬ ((env.model (initial_request q hist tools)).stop_reason = "tool_use" ∧ tm = true) →
        (∀ t, generate_response env q hist tools tm = Except.ok t ↔
          ∃ rest, (env.model (initial_request q hist tools)).content =
            ContentBlock.text t :: rest) ∧
        ((∀ t rest, (env.model (initial_request q hist tools)).content ≠
            ContentBlock.text t :: rest) →
          ∃ e, generate_response env q hist tools tm = Except.error e)) ∧
      (((env.model (initial_request q hist tools)).stop_reason = "tool_use" ∧ tm = true) →
        (∀ t, generate_response env q hist tools tm = Except.ok t ↔
          ∃ rest, (env.model (single_shot_follow_up_request env q hist tools)).content =
            ContentBlock.text t :: rest) ∧
        ((∀ t rest, (env.model (single_shot_follow_up_request env q hist tools)).content ≠
            ContentBlock.text t :: rest) →
          ∃ e, generate_response env q hist tools tm = Except.error e)) := by
  intro env q hist tools tm
  constructor
  · intro hn
    have hgen : generate_response env q hist tools tm =
        content0_text (env.model (initial_request q hist tools)) := by
      simp only [generate_response, initial_request] at hn ⊢
      rw [if_neg hn]
    exact ⟨fun t => by rw [hgen]; exact content0_text_ok_iff _ t,
      fun hno => by rw [hgen]; exact content0_text_error_of_no_text _ hno⟩
  · intro hy
    have hgen : generate_response env q hist tools tm =
        content0_text (env.model (single_shot_follow_up_request env q hist tools)) := by
      simp only [generate_response, handle_tool_execution, single_shot_follow_up_request,
        initial_request] at hy ⊢
      rw [if_pos hy]
    exact ⟨fun t => by rw [hgen]; exact content0_text_ok_iff _ t,
      fun hno => by rw [hgen]; exact content0_text_error_of_no_text _ hno⟩

/-- C10 witness: a natural-completion response whose first block is a
tool-use block makes the single-shot path raise. -/
theorem C10_unguarded_first_block_witness :
    ∃ e, generate_response env_tool_first_text "q" none false true = Except.error e :=
  ((C10_unguarded_first_block env_tool_first_text "q" none false true).1
      (by intro h; simp [env_tool_first_text, initial_request] at h)).2
    (by intro t rest h; simp [env_tool_first_text, initial_request] at h)

/-- The tool-execution loop never touches messages or the system prompt and
keeps the counter equal to the audit-log length. -/
theorem execute_tools_loop_frame (env : Env) (tm : Bool) :
    ∀ (bs : List ContentBlock) (ctx : ConversationContext)
      (out : ConversationContext × List ToolResult × List (String × String)),
      execute_tools_loop env tm bs ctx = Except.ok out →
      out.1.messages = ctx.messages ∧ out.1.system_prompt = ctx.system_prompt ∧
        (ctxInv ctx → ctxInv out.1) := by
  intro bs
  induction bs with
  | nil =>
    intro ctx out h
    simp only [execute_tools_loop, Except.ok.injEq] at h
    subst h
    exact ⟨rfl, rfl, fun hi => hi⟩
  | cons b rest ih =>
    intro ctx out h
    cases b with
    | text t => exact ih ctx out h
    | toolUse id name input =>
      by_cases htm : tm = true
      · subst htm
        simp only [execute_tools_loop, if_true] at h
        cases hrec : execute_tools_loop env true rest
            (ctx.add_tool_call name input (env.execute_tool name input)
              (env.clock ctx.tool_call_count)) with
        | error e => rw [hrec] at h; exact absurd h (by simp)
        | ok out1 =>
          rw [hrec] at h
          obtain ⟨ctxf, results, calls⟩ := out1
          simp only [Except.ok.injEq] at h
          subst h
          have hf := ih _ _ hrec
          refine ⟨hf.1, hf.2.1, fun hi => hf.2.2 ?_⟩
          simp only [ConversationContext.add_tool_call, ctxInv] at hi ⊢
          simp
          omega
      · simp only [execute_tools_loop, if_neg htm] at h
        exact absurd h (by simp)

/-- The `EXECUTING_TOOLS` handler preserves the counting invariant, only
appends to messages, and never touches the system prompt. -/
theorem handle_tool_execution_state_frame (env : Env) (bs : List ContentBlock)
    (ctx : ConversationContext) (tm : Bool) (step : StepOut)
    (h : handle_tool_execution_state env bs ctx tm = Except.ok step) :
    (ctxInv ctx → ctxInv step.ctx) ∧ ctx.messages <+: step.ctx.messages ∧
      step.ctx.system_prompt = ctx.system_prompt := by
  unfold handle_tool_execution_state at h
  cases hloop : execute_tools_loop env tm bs ctx with
  | error e => rw [hloop] at h; exact absurd h (by simp)
  | ok out =>
    rw [hloop] at h
    obtain ⟨ctx1, results, calls⟩ := out
    have hf := execute_tools_loop_frame env tm bs ctx _ hloop
    simp only [Except.ok.injEq] at h
    subst h
    by_cases hres : results = []
    · subst hres
      simp only [if_pos rfl]
      exact ⟨fun hi => hf.2.2 hi, hf.1 ▸ List.prefix_refl _, hf.2.1⟩
    · simp only [if_neg hres]
      refine ⟨fun hi => ?_, ?_, hf.2.1⟩
      · have := hf.2.2 hi
        simpa [ctxInv] using this
      · rw [hf.1]
        exact List.prefix_append _ _

/-- Every state handler, seen through the dispatcher, preserves the counting
invariant, only appends to messages, and never mutates the system prompt. -/
theorem dispatch_state_frame (env : Env) (state : ConversationState)
    (ctx : ConversationContext) (tools tm : Bool) (lr : Option ModelResponse)
    (step : StepOut) (h : dispatch_state env state ctx tools tm lr = Except.ok step) :
    (ctxInv ctx → ctxInv step.ctx) ∧ ctx.messages <+: step.ctx.messages ∧
      step.ctx.system_prompt = ctx.system_prompt := by
  cases state with
  | INITIAL =>
    simp only [dispatch_state, Except.ok.injEq] at h
    subst h
    exact ⟨fun hi => hi, List.prefix_refl _, rfl⟩
  | AWAITING_TOOL_DECISION =>
    cases lr with
    | none => exact absurd h (by simp [dispatch_state])
    | some r =>
      simp only [dispatch_state, Except.ok.injEq] at h
      subst h
      simp only [handle_tool_decision_state]
      split_ifs <;> exact ⟨fun hi => hi, by simp, rfl⟩
  | EXECUTING_TOOLS =>
    simp only [dispatch_state] at h
    cases lr with
    | some r => exact handle_tool_execution_state_frame env r.content ctx tm step h
    | none => exact handle_tool_execution_state_frame env [] ctx tm step h
  | AWAITING_FOLLOW_UP =>
    simp only [dispatch_state, Except.ok.injEq] at h
    subst h
    simp only [handle_follow_up_state]
    split_ifs <;> exact ⟨fun hi => hi, by simp, rfl⟩
  | COMPLETED => exact absurd h (by simp [dispatch_state])
  | ERROR => exact absurd h (by simp [dispatch_state])

/-- The driving loop, from any point, preserves the counting invariant, only
extends messages, and never mutates the system prompt. -/
theorem stream_loop_frame (env : Env) (tools tm : Bool) (maxIter : Nat) :
    ∀ (k : Nat) (state : ConversationState) (ctx : ConversationContext)
      (lr : Option ModelResponse),
      (ctxInv ctx → ctxInv (stream_loop env tools tm maxIter k state ctx lr).ctx) ∧
      ctx.messages <+: (stream_loop env tools tm maxIter k state ctx lr).ctx.messages ∧
      (stream_loop env tools tm maxIter k state ctx lr).ctx.system_prompt =
        ctx.system_prompt := by
  intro k
  induction k with
  | zero =>
    intro state ctx lr
    refine ⟨fun hi => hi, ?_, rfl⟩
    exact List.prefix_refl _
  | succ k ih =>
    intro state ctx lr
    simp only [stream_loop]
    cases hs : isTerminal state with
    | true =>
      simp only [hs]
      refine ⟨fun hi => hi, ?_, rfl⟩
      simp
    | false =>
      simp only [hs, Bool.false_eq_true, if_false]
      cases hd : dispatch_state env state ctx tools tm lr with
      | error e =>
        refine ⟨fun hi => hi, ?_, rfl⟩
        simp
      | ok step =>
        simp only []
        have hf := dispatch_state_frame env state ctx tools tm lr step hd
        cases hto : isTerminal step.transition.to_state with
        | true =>
          simp only [hto, if_true]
          exact ⟨fun hi => hf.1 hi, hf.2.1, hf.2.2⟩
        | false =>
          simp only [hto, Bool.false_eq_true, if_false]
          have hrest := ih step.transition.to_state step.ctx
            (match step.transition.data.response with
              | some r => some r
              | none => lr)
          exact ⟨fun hi => hrest.1 (hf.1 hi),
            hf.2.1.trans hrest.2.1,
            hrest.2.2.trans hf.2.2⟩

/-- C7: throughout every run of `generate_response_stream` the context
satisfies `toolCallCount = len(toolCallHistory)`: it holds of the context at
creation, every handler dispatch preserves it, and it holds of the final
context; moreover the message list never shrinks (each dispatch and the whole
run only extend it) and the system prompt, assigned once at context creation
from the built system content, is never mutated by any handler or by the
run. -/
theorem C7_context_invariants :
    (∀ (q : String) (hist : Option String),
      ctxInv (⟨[⟨"user", MessageContent.text q⟩], build_system_content hist, 0, [], [], []⟩ :
        ConversationContext)) ∧
    (∀ (env : Env) (state : ConversationState) (ctx : ConversationContext)
      (tools tm : Bool) (lr : Option ModelResponse) (step : StepOut),
      dispatch_state env state ctx tools tm lr = Except.ok step →
      (ctxInv ctx → ctxInv step.ctx) ∧ ctx.messages <+: step.ctx.messages ∧
        step.ctx.system_prompt = ctx.system_prompt) ∧
    (∀ (env : Env) (q : String) (hist : Option String) (tools tm : Bool) (maxIter : Nat),
      ctxInv (generate_response_stream env q hist tools tm maxIter).ctx ∧
      (generate_response_stream env q hist tools tm maxIter).ctx.system_prompt =
        build_system_content hist ∧
      [⟨"user", MessageContent.text q⟩] <+:
        (generate_response_stream env q hist tools tm maxIter).ctx.messages) := by
  refine ⟨fun q hist => rfl, dispatch_state_frame, ?_⟩
  intro env q hist tools tm maxIter
  have hf := stream_loop_frame env tools tm maxIter maxIter ConversationState.INITIAL
    ⟨[⟨"user", MessageContent.text q⟩], build_system_content hist, 0, [], [], []⟩ none
  exact ⟨hf.1 rfl, hf.2.2, hf.2.1⟩

/-- C7 witness: the `INITIAL` dispatch in a concrete environment preserves
the invariant, extends the messages, and keeps the prompt. -/
theorem C7_context_invariants_witness :
    (ctxInv ctx_sample → ctxInv step_sample.ctx) ∧
    ctx_sample.messages <+: step_sample.ctx.messages ∧
    step_sample.ctx.system_prompt = ctx_sample.system_prompt :=
  C7_context_invariants.2.1 env_end_turn_text4 ConversationState.INITIAL ctx_sample false false
    none step_sample rfl

/-- C9 witness: a prior response holding only a text block changes nothing
and yields the empty tool-results transition. -/
theorem C9_empty_tool_round_witness :
    handle_tool_execution_state env_end_turn_text4 [ContentBlock.text "hi"] ctx_sample true =
      Except.ok ⟨⟨ConversationState.EXECUTING_TOOLS, ConversationState.AWAITING_FOLLOW_UP,
        "tools_executed", { tool_results := some [] }⟩, ctx_sample, [], []⟩ :=
  C9_empty_tool_round.1 env_end_turn_text4 [ContentBlock.text "hi"] ctx_sample true rfl

/-- When the model always answers with stop reason `tool_use` (and a tool
manager is supplied), every dispatch from a non-terminal state succeeds,
produces a non-terminal destination, and maintains that a response held in
`last_response` at `AWAITING_TOOL_DECISION` is a model output. -/
theorem dispatch_all_tool_use (env : Env) (tools : Bool)
    (Hm : ∀ req, (env.model req).stop_reason = "tool_use")
    (state : ConversationState) (ctx : ConversationContext) (lr : Option ModelResponse)
    (hterm : isTerminal state = false)
    (hlr : state = ConversationState.AWAITING_TOOL_DECISION →
      ∃ req, lr = some (env.model req)) :
    ∃ step, dispatch_state env state ctx tools true lr = Except.ok step ∧
      isTerminal step.transition.to_state = false ∧
      step.transition.trigger ≠ "max_iterations_exceeded" ∧
      (step.transition.to_state = ConversationState.AWAITING_TOOL_DECISION →
        ∃ req, (match step.transition.data.response with
                | some r => some r
                | none => lr) = some (env.model req)) := by
  cases state with
  | INITIAL =>
    refine ⟨handle_initial_state env ctx tools, rfl, rfl, by simp [handle_initial_state], ?_⟩
    intro _
    exact ⟨⟨ctx.messages, ctx.system_prompt, tools⟩, by simp [handle_initial_state]⟩
  | AWAITING_TOOL_DECISION =>
    obtain ⟨req, hreq⟩ := hlr rfl
    subst hreq
    refine ⟨handle_tool_decision_state (env.model req) ctx, rfl, ?_, ?_, ?_⟩ <;>
      simp [handle_tool_decision_state, Hm req, isTerminal]
  | EXECUTING_TOOLS =>
    have hbs : ∀ bs, ∃ step,
        handle_tool_execution_state env bs ctx true = Except.ok step ∧
        step.transition.to_state = ConversationState.AWAITING_FOLLOW_UP ∧
        step.transition.trigger = "tools_executed" ∧
        step.transition.data.response = none := by
      intro bs
      unfold handle_tool_execution_state
      rw [execute_tools_loop_spec]
      simp only []
      split
      · exact ⟨_, rfl, rfl, rfl, rfl⟩
      · exact ⟨_, rfl, rfl, rfl, rfl⟩
    have main : ∀ bs, ∃ step,
        handle_tool_execution_state env bs ctx true = Except.ok step ∧
        isTerminal step.transition.to_state = false ∧
        step.transition.trigger ≠ "max_iterations_exceeded" ∧
        (step.transition.to_state = ConversationState.AWAITING_TOOL_DECISION →
          ∃ req, (match step.transition.data.response with
                  | some r => some r
                  | none => lr) = some (env.model req)) := by
      intro bs
      obtain ⟨step, hstep, hto, htrig, hresp⟩ := hbs bs
      refine ⟨step, hstep, by rw [hto]; rfl, by rw [htrig]; decide, ?_⟩
      intro hcontra
      rw [hto] at hcontra
      exact absurd hcontra (by decide)
    cases lr with
    | some r => exact main r.content
    | none => exact main []
  | AWAITING_FOLLOW_UP =>
    refine ⟨handle_follow_up_state env ctx tools, rfl, ?_, ?_, ?_⟩ <;>
      simp [handle_follow_up_state, Hm ⟨ctx.messages, ctx.system_prompt, tools⟩, isTerminal]
  | COMPLETED => simp [isTerminal] at hterm
  | ERROR => simp [isTerminal] at hterm

/-- When the model always requests tool use, the driving loop from any
non-terminal point performs exactly its remaining budget of dispatches, each
yielding one non-terminal transition, and then yields the single synthesized
`max_iterations_exceeded` `ERROR` transition. -/
theorem stream_loop_all_tool_use (env : Env) (tools : Bool) (maxIter : Nat)
    (Hm : ∀ req, (env.model req).stop_reason = "tool_use") :
    ∀ (k : Nat) (state : ConversationState) (ctx : ConversationContext)
      (lr : Option ModelResponse),
      isTerminal state = false →
      (state = ConversationState.AWAITING_TOOL_DECISION →
        ∃ req, lr = some (env.model req)) →
      ∃ body fs,
        (stream_loop env tools true maxIter k state ctx lr).transitions =
          body ++ [max_iterations_transition fs maxIter] ∧
        body.length = k ∧
        (∀ tr ∈ body, isTerminal tr.to_state = false ∧
          tr.trigger ≠ "max_iterations_exceeded") ∧
        (stream_loop env tools true maxIter k state ctx lr).err = none := by
  intro k
  induction k with
  | zero =>
    intro state ctx lr hterm hlr
    refine ⟨[], state, ?_, rfl, by simp, rfl⟩
    simp [stream_loop, hterm]
  | succ k ih =>
    intro state ctx lr hterm hlr
    obtain ⟨step, hd, hto, htrig, hnext⟩ :=
      dispatch_all_tool_use env tools Hm state ctx lr hterm hlr
    simp only [stream_loop, hterm, Bool.false_eq_true, if_false, hd]
    simp only [hto, Bool.false_eq_true, if_false]
    obtain ⟨body, fs, hbody, hlen, hmem, herr⟩ :=
      ih step.transition.to_state step.ctx
        (match step.transition.data.response with
          | some r => some r
          | none => lr) hto hnext
    refine ⟨step.transition :: body, fs, ?_, by simp [hlen], ?_, herr⟩
    · simp [hbody]
    · intro tr htr2
      rcases List.mem_cons.mp htr2 with h | h
      · subst h; exact ⟨hto, htrig⟩
      · exact hmem tr h

/-- C3: when every model response has stop reason `tool_use` and a tool
manager is supplied, the run performs exactly `maxIterations` handler
dispatches — each yielding one non-terminal transition, none of them the
synthesized error — followed by the single `max_iterations_exceeded` `ERROR`
transition, and the run raises no exception. -/
theorem C3_iteration_cap_exact (env : Env) (q : String) (hist : Option String)
    (tools : Bool) (maxIter : Nat)
    (Hm : ∀ req, (env.model req).stop_reason = "tool_use") :
    ∃ body fs,
      (generate_response_stream env q hist tools true maxIter).transitions =
        body ++ [max_iterations_transition fs maxIter] ∧
      body.length = maxIter ∧
      (∀ tr ∈ body, isTerminal tr.to_state = false ∧
        tr.trigger ≠ "max_iterations_exceeded") ∧
      (generate_response_stream env q hist tools true maxIter).err = none :=
  stream_loop_all_tool_use env tools maxIter Hm maxIter ConversationState.INITIAL
    ⟨[⟨"user", MessageContent.text q⟩], build_system_content hist, 0, [], [], []⟩ none
    rfl (fun h => by cases h)

/-- C3 witness: a model that always requests tools, with a cap of 2, yields
exactly 2 dispatched transitions and then the synthesized error. -/
theorem C3_iteration_cap_exact_witness :
    ∃ body fs,
      (generate_response_stream env_tool_use_loop "q" none true true 2).transitions =
        body ++ [max_iterations_transition fs 2] ∧
      body.length = 2 ∧
      (∀ tr ∈ body, isTerminal tr.to_state = false ∧
        tr.trigger ≠ "max_iterations_exceeded") ∧
      (generate_response_stream env_tool_use_loop "q" none true true 2).err = none :=
  C3_iteration_cap_exact env_tool_use_loop "q" none true 2 (fun _ => rfl)

/-- Peeling one non-terminal step off the driving loop. -/
theorem stream_loop_step (env : Env) (tools tm : Bool) (maxIter k : Nat)
    (state : ConversationState) (ctx : ConversationContext) (lr : Option ModelResponse)
    (step : StepOut)
    (hterm : isTerminal state = false)
    (hd : dispatch_state env state ctx tools tm lr = Except.ok step)
    (hto : isTerminal step.transition.to_state = false) :
    stream_loop env tools tm maxIter (k + 1) state ctx lr =
      ⟨step.transition ::
          (stream_loop env tools tm maxIter k step.transition.to_state step.ctx
            (match step.transition.data.response with
              | some r => some r
              | none => lr)).transitions,
        (stream_loop env tools tm maxIter k step.transition.to_state step.ctx
            (match step.transition.data.response with
              | some r => some r
              | none => lr)).ctx,
        step.modelCalls ++
          (stream_loop env tools tm maxIter k step.transition.to_state step.ctx
            (match step.transition.data.response with
              | some r => some r
              | none => lr)).modelCalls,
        step.toolCalls ++
          (stream_loop env tools tm maxIter k step.transition.to_state step.ctx
            (match step.transition.data.response with
              | some r => some r
              | none => lr)).toolCalls,
        (stream_loop env tools tm maxIter k step.transition.to_state step.ctx
            (match step.transition.data.response with
              | some r => some r
              | none => lr)).err⟩ := by
  simp only [stream_loop, hterm, Bool.false_eq_true, if_false, hd, hto]

/-- A dispatch into a terminal state with budget left breaks the loop and
yields only that transition. -/
theorem stream_loop_break (env : Env) (tools tm : Bool) (maxIter k : Nat)
    (state : ConversationState) (ctx : ConversationContext) (lr : Option ModelResponse)
    (step : StepOut)
    (hterm : isTerminal state = false)
    (hd : dispatch_state env state ctx tools tm lr = Except.ok step)
    (hto : isTerminal step.transition.to_state = true)
    (hk : k ≠ 0) :
    stream_loop env tools tm maxIter (k + 1) state ctx lr =
      ⟨[step.transition], step.ctx, step.modelCalls, step.toolCalls, none⟩ := by
  simp only [stream_loop, hterm, Bool.false_eq_true, if_false, hd, hto, if_true, hk]

/-- C8 counterexample: a run with zero tool rounds (at most one) that
completes naturally, whose completion response is `[toolUse, text "4"]`.  The
state machine's `COMPLETED` transition carries final text `"4"` (it scans for
the first text-bearing block), but `generate_response` reads `content[0].text`
and raises instead of returning that text — so the single-shot path does not
return "exactly the final text" the state machine yields. -/
theorem C8_single_shot_counterexample :
    generate_response env_tool_first_text "q" none false true =
      Except.error "AttributeError: toolUse object has no attribute text" ∧
    first_completed_final_text
      (generate_response_stream env_tool_first_text "q" none false true 10).transitions =
      some (some "4") :=
  ⟨rfl, rfl⟩

/-- C8 amended: for every run involving at most one tool round — the model
completes naturally either immediately or right after the single tool round —
in which the model service's answers do not depend on the tool-declaration
flag, a tool manager is supplied, and the relevant natural-completion
response's first content block is a text block, the single-shot
`generate_response` returns exactly the text that driving
`generate_response_stream` (default cap 10) to completion yields in its
`COMPLETED` transition. -/
theorem C8_single_shot_amended (env : Env) (q : String) (hist : Option String)
    (tools : Bool) (t : String)
    (H0 : ∀ (ms : List Message) (s : String),
      env.model ⟨ms, s, true⟩ = env.model ⟨ms, s, false⟩)
    (hcases :
      ((env.model (initial_request q hist tools)).stop_reason = "end_turn" ∧
        ∃ rest, (env.model (initial_request q hist tools)).content =
          ContentBlock.text t :: rest) ∨
      ((env.model (initial_request q hist tools)).stop_reason = "tool_use" ∧
        (env.model (single_shot_follow_up_request env q hist tools)).stop_reason = "end_turn" ∧
        ∃ rest, (env.model (single_shot_follow_up_request env q hist tools)).content =
          ContentBlock.text t :: rest)) :
    generate_response env q hist tools true = Except.ok t ∧
    first_completed_final_text
      (generate_response_stream env q hist tools true 10).transitions = some (some t) := by
  rcases hcases with ⟨hstop, rest, hcontent⟩ | ⟨hstop1, hstop2, rest, hcontent⟩
  · constructor
    · have hcond : ¬ ((env.model (initial_request q hist tools)).stop_reason = "tool_use" ∧
          (true : Bool) = true) := by
        rw [hstop]; simp
      have hgen : generate_response env q hist tools true =
          content0_text (env.model (initial_request q hist tools)) := by
        simp only [generate_response, initial_request] at hcond ⊢
        rw [if_neg hcond]
      rw [hgen]
      exact (content0_text_ok_iff _ t).mpr ⟨rest, hcontent⟩
    · have hd1 : dispatch_state env ConversationState.INITIAL
          ⟨[⟨"user", MessageContent.text q⟩], build_system_content hist, 0, [], [], []⟩
          tools true none =
          Except.ok ⟨⟨ConversationState.INITIAL, ConversationState.AWAITING_TOOL_DECISION,
            "api_call_complete", { response := some (env.model (initial_request q hist tools)) }⟩,
            ⟨[⟨"user", MessageContent.text q⟩], build_system_content hist, 0, [], [], []⟩,
            [initial_request q hist tools], []⟩ := rfl
      have hd2 : dispatch_state env ConversationState.AWAITING_TOOL_DECISION
          ⟨[⟨"user", MessageContent.text q⟩], build_system_content hist, 0, [], [], []⟩
          tools true (some (env.model (initial_request q hist tools))) =
          Except.ok ⟨⟨ConversationState.AWAITING_TOOL_DECISION, ConversationState.COMPLETED,
            "end_turn", { final_text := some (first_text_block (env.model (initial_request q hist tools)).content), response := some (env.model (initial_request q hist tools)) }⟩,
            ⟨[⟨"user", MessageContent.text q⟩], build_system_content hist, 0, [], [], []⟩,
            [], []⟩ := by
        simp only [dispatch_state, handle_tool_decision_state, hstop]
        simp
      have e1 : generate_response_stream env q hist tools true 10 =
          stream_loop env tools true 10 (9 + 1) ConversationState.INITIAL
            ⟨[⟨"user", MessageContent.text q⟩], build_system_content hist, 0, [], [], []⟩
            none := rfl
      rw [e1, stream_loop_step env tools true 10 9 ConversationState.INITIAL _ none _ rfl
        hd1 rfl]
      dsimp only
      rw [show (9 : Nat) = 8 + 1 from rfl,
        stream_loop_break env tools true 10 8 ConversationState.AWAITING_TOOL_DECISION _ _ _
          rfl hd2 rfl (by decide)]
      simp [first_completed_final_text, List.find?, hcontent, first_text_block]
  · constructor
    · have hy : (env.model (initial_request q hist tools)).stop_reason = "tool_use" ∧
          (true : Bool) = true := ⟨hstop1, rfl⟩
      have hgen : generate_response env q hist tools true =
          content0_text (env.model (single_shot_follow_up_request env q hist tools)) := by
        simp only [generate_response, handle_tool_execution, single_shot_follow_up_request,
          initial_request] at hy ⊢
        rw [if_pos hy]
      rw [hgen]
      exact (content0_text_ok_iff _ t).mpr ⟨rest, hcontent⟩
    · have hd1 : dispatch_state env ConversationState.INITIAL
          ⟨[⟨"user", MessageContent.text q⟩], build_system_content hist, 0, [], [], []⟩
          tools true none =
          Except.ok ⟨⟨ConversationState.INITIAL, ConversationState.AWAITING_TOOL_DECISION,
            "api_call_complete", { response := some (env.model (initial_request q hist tools)) }⟩,
            ⟨[⟨"user", MessageContent.text q⟩], build_system_content hist, 0, [], [], []⟩,
            [initial_request q hist tools], []⟩ := rfl
      have hd2 : dispatch_state env ConversationState.AWAITING_TOOL_DECISION
          ⟨[⟨"user", MessageContent.text q⟩], build_system_content hist, 0, [], [], []⟩
          tools true (some (env.model (initial_request q hist tools))) =
          Except.ok ⟨⟨ConversationState.AWAITING_TOOL_DECISION, ConversationState.EXECUTING_TOOLS,
            "tool_use", { response := some (env.model (initial_request q hist tools)), tool_blocks := some (env.model (initial_request q hist tools)).content }⟩,
            ⟨[⟨"user", MessageContent.text q⟩, ⟨"assistant", MessageContent.blocks (env.model (initial_request q hist tools)).content⟩], build_system_content hist, 0, [], [], []⟩,
            [], []⟩ := by
        simp only [dispatch_state, handle_tool_decision_state, hstop1]
        simp
      have hd3 : ∃ step3 : StepOut,
          dispatch_state env ConversationState.EXECUTING_TOOLS
            ⟨[⟨"user", MessageContent.text q⟩, ⟨"assistant", MessageContent.blocks (env.model (initial_request q hist tools)).content⟩], build_system_content hist, 0, [], [], []⟩
            tools true (some (env.model (initial_request q hist tools))) =
            Except.ok step3 ∧
          step3.transition = ⟨ConversationState.EXECUTING_TOOLS,
            ConversationState.AWAITING_FOLLOW_UP, "tools_executed",
            { tool_results := some (expected_tool_results env
                (env.model (initial_request q hist tools)).content) }⟩ ∧
          step3.ctx.messages = single_shot_messages env
            (env.model (initial_request q hist tools)) [⟨"user", MessageContent.text q⟩] ∧
          step3.ctx.system_prompt = build_system_content hist := by
        simp only [dispatch_state]
        unfold handle_tool_execution_state
        rw [execute_tools_loop_spec]
        simp only []
        split
        · next hres =>
          refine ⟨_, rfl, rfl, ?_, rfl⟩
          simp [single_shot_messages, hres]
        · next hres =>
          refine ⟨_, rfl, rfl, ?_, rfl⟩
          simp [single_shot_messages, hres]
      obtain ⟨step3, hd3eq, htr3, hmsg3, hsys3⟩ := hd3
      have hr2eq : env.model ⟨step3.ctx.messages, step3.ctx.system_prompt, tools⟩ =
          env.model (single_shot_follow_up_request env q hist tools) := by
        rw [hmsg3, hsys3]
        cases tools with
        | true => exact H0 _ _
        | false => rfl
      have hd4 : dispatch_state env ConversationState.AWAITING_FOLLOW_UP step3.ctx
          tools true (some (env.model (initial_request q hist tools))) =
          Except.ok ⟨⟨ConversationState.AWAITING_FOLLOW_UP, ConversationState.COMPLETED,
            "end_turn", { final_text := some (first_text_block (env.model (single_shot_follow_up_request env q hist tools)).content), response := some (env.model (single_shot_follow_up_request env q hist tools)) }⟩,
            step3.ctx, [⟨step3.ctx.messages, step3.ctx.system_prompt, tools⟩], []⟩ := by
        simp only [dispatch_state, handle_follow_up_state, hr2eq, hstop2]
        simp
      have e1 : generate_response_stream env q hist tools true 10 =
          stream_loop env tools true 10 (9 + 1) ConversationState.INITIAL
            ⟨[⟨"user", MessageContent.text q⟩], build_system_content hist, 0, [], [], []⟩
            none := rfl
      rw [e1, stream_loop_step env tools true 10 9 ConversationState.INITIAL _ none _ rfl
        hd1 rfl]
      dsimp only
      rw [show (9 : Nat) = 8 + 1 from rfl,
        stream_loop_step env tools true 10 8 ConversationState.AWAITING_TOOL_DECISION _ _ _
          rfl hd2 rfl]
      dsimp only
      rw [show (8 : Nat) = 7 + 1 from rfl,
        stream_loop_step env tools true 10 7 ConversationState.EXECUTING_TOOLS _ _ step3 rfl
          hd3eq (by rw [htr3]; rfl)]
      rw [htr3]
      dsimp only
      rw [show (7 : Nat) = 6 + 1 from rfl,
        stream_loop_break env tools true 10 6 ConversationState.AWAITING_FOLLOW_UP _ _ _ rfl
          hd4 rfl (by decide)]
      simp [first_completed_final_text, List.find?, hcontent, first_text_block]

/-- C8 amended witness: a model that requests one search tool on the opening
call and then completes with text `"answer"` — the single-shot path returns
`"answer"` and the state machine's `COMPLETED` transition carries the same
text. -/
theorem C8_single_shot_amended_witness :
    generate_response env_one_round "q" none true true = Except.ok "answer" ∧
    first_completed_final_text
      (generate_response_stream env_one_round "q" none true true 10).transitions =
      some (some "answer") :=
  C8_single_shot_amended env_one_round "q" none true "answer" (fun _ _ => rfl)
    (Or.inr ⟨rfl, rfl, [], rfl⟩)

end AIGen
